import Mathlib

/-!
Shallow embedding of the `actix-web-metrics` middleware (`src/lib.rs`).

The embedding models the pure decision logic of the middleware:
label construction, exclusion rules, route-label resolution (including the
`strfmt`-based mixed-cardinality substitution), request/response size
accounting, and the per-request lifecycle of the active-request gauge
(increment in `MetricsMiddleware::call`, decrement in `StreamLog`'s
pinned drop via `ActixWebMetrics::post_request_update_metrics`).

Machine `usize` values are modelled as `Nat` (sizes only ever grow by
chunk lengths; no overflow-relevant arithmetic occurs in the source).
`HashMap`s whose iteration feeds `strfmt` are modelled as association
lists; route match-info keys are unique in actix-web, so first-match
lookup coincides with hash-map lookup.  The `regex::RegexSet` of
`exclude_regex` is an external crate and is modelled abstractly as a
membership predicate `String → Bool` (its `is_match`).
-/

namespace ActixWebMetrics

/-- HTTP protocol version (`actix_web::http::Version`); `other` models a
non-exhaustive future variant, matching the wildcard arm of
`ActixWebMetrics::http_version_label`. -/
inductive Version where
  | http09
  | http10
  | http11
  | http2
  | http3
  | other
deriving DecidableEq, Repr

/-- Embeds `ActixWebMetrics::http_version_label` (lib.rs:709-720). -/
def http_version_label : Version → Option String
  | .http09 => some "0.9"
  | .http10 => some "1.0"
  | .http11 => some "1.1"
  | .http2 => some "2"
  | .http3 => some "3"
  | .other => none

/-- Embeds the free function `url_scheme` (lib.rs:918-920):
`uri.scheme().map(|s| s.as_str()).unwrap_or("http")`.  The argument is the
URI's optional scheme component. -/
def url_scheme (scheme : Option String) : String :=
  scheme.getD "http"

/-- Embeds `MetricsMetadata` (lib.rs:574-588): label names plus the
already-sorted constant label list produced by the builder. -/
structure MetricsMetadata where
  http_route : String
  http_request_method : String
  http_response_status_code : String
  network_protocol_name : String
  network_protocol_version : String
  url_scheme : String
  const_labels : List (String × String)
deriving Repr

/-- Default label names from `LabelsConfig::default` (lib.rs:464-475),
with no constant labels (builder default). -/
def default_metadata : MetricsMetadata :=
  { http_route := "http.route"
    http_request_method := "http.request.method"
    http_response_status_code := "http.response.status_code"
    network_protocol_name := "network.protocol.name"
    network_protocol_version := "network.protocol.version"
    url_scheme := "url.scheme"
    const_labels := [] }

/-- Embeds `ActixWebMetricsInner` (lib.rs:599-606).  `exclude_regex`
models the compiled `RegexSet`'s `is_match`. -/
structure Inner where
  names : MetricsMetadata
  exclude : List String
  exclude_regex : String → Bool
  exclude_status : List Nat
  unmatched_patterns_mask : Option String

/-- Embeds `ActixWebMetricsBuilder::new().build()` with default settings
(lib.rs:281-291, 351-444): empty exclusion sets, `RegexSet::empty()`
(matches nothing), and mask `Some("UNKNOWN")`. -/
def builder_default : Inner :=
  { names := default_metadata
    exclude := []
    exclude_regex := fun _ => false
    exclude_status := []
    unmatched_patterns_mask := some "UNKNOWN" }

/-- Embeds `const_labels.sort_by_key(|v| v.0)` in
`ActixWebMetricsBuilder::build` (lib.rs:397-405): the user-supplied
constant labels sorted by key. -/
def sort_const_labels (m : List (String × String)) : List (String × String) :=
  m.mergeSort (fun a b => a.1 ≤ b.1)

/-- The effect of one `post_request_update_metrics` call: the labels of
the unconditional active-request gauge decrement, and, when not excluded,
the shared label list of the three histogram observations together with
the recorded request/response sizes. -/
structure PostRequestEffect where
  gauge_dec_labels : List (String × String)
  observation : Option (List (String × String) × Nat × Nat)
deriving Repr

/-- The 404/405 fallback correction (lib.rs:665-671): the first
`final_pattern` binding of `post_request_update_metrics`. -/
def corrected_pattern (mixed fallback : String) (status : Nat) : String :=
  if fallback != mixed && (status == 404 || status == 405) then fallback else mixed

/-- The exclusion test exactly as the code performs it (lib.rs:658-661),
as a reusable predicate over the label it is given. -/
def is_excluded (this : Inner) (label : String) (status : Nat) : Bool :=
  this.exclude.contains label || this.exclude_regex label
    || this.exclude_status.contains status

/-- Embeds `ActixWebMetrics::post_request_update_metrics`
(lib.rs:626-707).  Status codes are their numeric values; the duration
value (wall-clock float) is not modelled, only the emission decision and
the label list shared by the duration/request-size/response-size
observations. -/
def post_request_update_metrics (this : Inner) (http_version : Version)
    (mixed fallback method : String) (status : Nat) (scheme : String)
    (was_path_matched : Bool) (request_size response_size : Nat) : PostRequestEffect :=
  let names := this.names
  let active_request_labels :=
    (names.http_request_method, method) :: (names.url_scheme, scheme) :: names.const_labels
  if is_excluded this mixed status then
    { gauge_dec_labels := active_request_labels, observation := none }
  else
    let final1 := corrected_pattern mixed fallback status
    let final2 :=
      if was_path_matched then final1
      else
        match this.unmatched_patterns_mask with
        | some mask => mask
        | none => final1
    let labels :=
      (names.http_route, final2) ::
      (names.http_request_method, method) ::
      (names.http_response_status_code, toString status) ::
      (names.network_protocol_name, "http") ::
      ((match http_version_label http_version with
        | some v => [(names.network_protocol_version, v)]
        | none => []) ++ names.const_labels)
    { gauge_dec_labels := active_request_labels
      observation := some (labels, request_size, response_size) }

/-- Embeds `ActixWebMetrics::pre_request_update_metrics` (lib.rs:609-623):
the label list of the active-request gauge increment. -/
def pre_request_update_metrics (this : Inner) (method : String)
    (uri_scheme : Option String) : List (String × String) :=
  (this.names.http_request_method, method) ::
  (this.names.url_scheme, url_scheme uri_scheme) ::
  this.names.const_labels

/-- The label list of the emitted observations, when any. -/
def observation_labels (e : PostRequestEffect) : Option (List (String × String)) :=
  e.observation.map (fun o => o.1)

/-- The value of the route label of the emitted observations, when any
(the first label pushed by `post_request_update_metrics`). -/
def emitted_route_label (e : PostRequestEffect) : Option String :=
  e.observation.bind (fun o => (o.1.head?).map (fun p => p.2))

/-- `shouldRecord(routeLabel, statusCode)` as the spec describes it
(spec 4.2): true when none of the three exclusion predicates match the
given route label and status. -/
def should_record_spec (this : Inner) (route_label : String) (status : Nat) : Bool :=
  !(this.exclude.contains route_label || this.exclude_regex route_label
    || this.exclude_status.contains status)

/-- Scans the characters of a `strfmt` replacement key: everything up to
the first `}` is the key; reaching the end of input without a closing
brace is a format error. -/
def take_key : List Char → Option (List Char)
  | [] => none
  | c :: rest =>
    if c = '}' then some []
    else (take_key rest).map (fun k => c :: k)

/-- Embeds the scanning loop of the `strfmt` crate's `strfmt(fmt, vars)`
for plain `{name}` keys: `{{` and `}}` are literal-brace escapes, a lone
`}` or an unterminated `{` is an error, and `{name}` is replaced by
`vars[name]` (error if absent).  After a successful key scan the input
resumes one position past the key's closing brace.  Returns the
formatted character list or `none` on error. -/
def strfmt_go (vars : List (String × String)) : List Char → Option (List Char)
  | [] => some []
  | c :: rest =>
    if c = '{' then
      match rest with
      | [] => none
      | d :: rest2 =>
        if d = '{' then (strfmt_go vars rest2).map (fun l => '{' :: l)
        else
          match take_key (d :: rest2) with
          | none => none
          | some k =>
            match vars.lookup (String.mk k) with
            | none => none
            | some v =>
              (strfmt_go vars ((d :: rest2).drop (k.length + 1))).map
                (fun l => v.toList ++ l)
    else if c = '}' then
      match rest with
      | [] => none
      | d :: rest2 =>
        if d = '}' then (strfmt_go vars rest2).map (fun l => '}' :: l)
        else none
    else
      (strfmt_go vars rest).map (fun l => c :: l)
termination_by l => l.length
decreasing_by
  all_goals simp only [List.length_cons, List.length_drop] at *
  all_goals omega

/-- Embeds `strfmt::strfmt` as used in `LoggerResponse::poll`
(lib.rs:801): `Ok` becomes `some`, `Err` becomes `none`. -/
def strfmt (fmt : String) (vars : List (String × String)) : Option String :=
  (strfmt_go vars fmt.toList).map String.mk

/-- Embeds the `params` map construction of `LoggerResponse::poll`
(lib.rs:791-799): each match-info binding keeps its literal value when
its name is in the cardinality keep-list and is replaced by the
placeholder `{key}` otherwise.  Match-info keys are unique, so the
association list models the `HashMap` faithfully. -/
def build_params (match_info : List (String × String))
    (params_keep : List String) : List (String × String) :=
  match_info.map (fun p =>
    if params_keep.contains p.1 then p
    else (p.1, "\x7b" ++ p.1 ++ "\x7d"))

/-- Embeds the `mixed_pattern` computation of `LoggerResponse::poll`
(lib.rs:788-808).  Returns the label together with a flag recording
whether the substitution-failure warning was logged. -/
def resolve_mixed_pattern (full_pattern : Option String) (path : String)
    (match_info : List (String × String)) (params_keep : List String) :
    String × Bool :=
  match full_pattern with
  | none => (path, false)
  | some fp =>
    match strfmt fp (build_params match_info params_keep) with
    | some mixed_cardinality => (mixed_cardinality, false)
    | none => (fp, true)

/-- A piece of a parsed route template: literal text or a `{name}`
parameter placeholder.  Route templates are the alternation of the two,
e.g. `/posts/{language}/{slug}`. -/
inductive Piece where
  | lit (s : String)
  | par (name : String)
deriving DecidableEq, Repr

/-- The template string denoted by a piece list, as characters. -/
def render_chars : List Piece → List Char
  | [] => []
  | .lit s :: r => s.toList ++ render_chars r
  | .par n :: r => '{' :: (n.toList ++ ('}' :: render_chars r))

/-- The template string denoted by a piece list. -/
def render_template (pieces : List Piece) : String :=
  String.mk (render_chars pieces)

/-- The claim's description of the resolved label, as characters: the
template with each bound parameter replaced by its literal value if its
name is in the override set and by its placeholder token otherwise. -/
def spec_label_chars (keep : List String) (mi : List (String × String)) :
    List Piece → List Char
  | [] => []
  | .lit s :: r => s.toList ++ spec_label_chars keep mi r
  | .par n :: r =>
    (if keep.contains n then (mi.lookup n).getD "" else "\x7b" ++ n ++ "\x7d").toList
      ++ spec_label_chars keep mi r

/-- The claim's description of the resolved label. -/
def spec_mixed_label (keep : List String) (mi : List (String × String))
    (pieces : List Piece) : String :=
  String.mk (spec_label_chars keep mi pieces)

/-- Characters that take no part in template syntax. -/
def brace_free (l : List Char) : Bool :=
  l.all (fun c => c != '{' && c != '}')

/-- Well-formedness of a template against the match-info bindings:
literal segments and parameter names contain no braces, and every
parameter is bound. -/
def wf_pieces (mi : List (String × String)) : List Piece → Bool
  | [] => true
  | .lit s :: r => brace_free s.toList && wf_pieces mi r
  | .par n :: r =>
    brace_free n.toList && (mi.lookup n).isSome && wf_pieces mi r

/-- The template of the claim's example, `/posts/{language}/{slug}`. -/
def posts_pieces : List Piece :=
  [.lit "/posts/", .par "language", .lit "/", .par "slug"]

/-- Embeds Rust's `str::parse::<usize>` on a 64-bit target: an optional
leading `+`, then at least one ASCII digit, value below `2 ^ 64`
(overflow is a parse error); anything else is an error. -/
def parse_usize (s : String) : Option Nat :=
  let cs :=
    match s.toList with
    | '+' :: rest => rest
    | l => l
  if cs.isEmpty then none
  else if cs.all Char.isDigit then
    let n := cs.foldl (fun a c => a * 10 + (c.toNat - 48)) 0
    if n < 2 ^ 64 then some n else none
  else none

/-- The per-request data the middleware reads from the `ServiceRequest`:
method, optional URI scheme, protocol version, raw path, the router's
`match_pattern()`, the `match_info()` bindings, the
`ActixWebMetricsExtension` keep-list (empty when the extension is
absent, lib.rs:777-781), and the `content-length` header as seen after
`to_str` (`none` when absent or not visible ASCII). -/
structure RequestData where
  method : String
  uri_scheme : Option String
  version : Version
  path : String
  match_pattern : Option String
  match_info : List (String × String)
  cardinality_keep_params : List String
  content_length : Option String
deriving Repr

/-- One chunk of the response body stream: emitted bytes or a stream
error (modelled by its message). -/
abbrev Chunk := Except String (List Nat)

/-- The inner service's successful response: the head status and the
body chunks the wrapped body will deliver. -/
structure ResponsePayload where
  head_status : Nat
  chunks : List Chunk
deriving Repr

/-- Embeds the `StreamLog` state (lib.rs:866-883) minus the clock and
middleware handle. -/
structure StreamLog where
  body : List Chunk
  response_size : Nat
  request_size : Nat
  status : Nat
  scheme : String
  mixed_pattern : String
  fallback_pattern : String
  method : String
  version : Version
  was_path_matched : Bool
deriving Repr

/-- Embeds `LoggerResponse::poll` (lib.rs:761-834): an inner error is
returned unchanged (no `StreamLog` is constructed); a success wraps the
body in a `StreamLog` carrying the captured request snapshot. -/
def logger_response_poll (req : RequestData)
    (inner_result : Except Unit ResponsePayload) : Except Unit StreamLog :=
  match inner_result with
  | .error e => .error e
  | .ok res =>
    let was_path_matched := req.match_pattern.isSome
    let params_keep := req.cardinality_keep_params
    let full_pattern := req.match_pattern
    let path := req.path
    let fallback_pattern := full_pattern.getD path
    let mixed := resolve_mixed_pattern full_pattern path req.match_info params_keep
    let request_size := (req.content_length.bind parse_usize).getD 0
    let scheme := url_scheme req.uri_scheme
    .ok
      { body := res.chunks
        response_size := 0
        request_size := request_size
        status := res.head_status
        scheme := scheme
        mixed_pattern := mixed.1
        fallback_pattern := fallback_pattern
        method := req.method
        version := req.version
        was_path_matched := was_path_matched }

/-- Embeds repeated polling of `StreamLog::poll_next` (lib.rs:902-915)
until the stream ends: each `Ok` chunk adds its length to the
accumulator and is forwarded; an `Err` chunk is forwarded without
touching the accumulator.  Returns the final accumulator and the chunks
as seen by the consumer. -/
def stream_log_consume (acc : Nat) : List Chunk → Nat × List Chunk
  | [] => (acc, [])
  | .ok chunk :: rest =>
    let p := stream_log_consume (acc + chunk.length) rest
    (p.1, .ok chunk :: p.2)
  | .error err :: rest =>
    let p := stream_log_consume acc rest
    (p.1, .error err :: p.2)

/-- Embeds `StreamLog`'s `PinnedDrop` (lib.rs:886-892): the one call of
`post_request_update_metrics` for the request. -/
def stream_log_drop (this : Inner) (sl : StreamLog) : PostRequestEffect :=
  post_request_update_metrics this sl.version sl.mixed_pattern
    sl.fallback_pattern sl.method sl.status sl.scheme sl.was_path_matched
    sl.request_size sl.response_size

/-- A metric event observable at the sink. -/
inductive MetricEvent where
  | gauge_inc (labels : List (String × String))
  | gauge_dec (labels : List (String × String))
  | observe (labels : List (String × String)) (request_size response_size : Nat)
deriving DecidableEq, Repr

/-- The full per-request lifecycle: `MetricsMiddleware::call`
(lib.rs:854-863) increments the gauge and polls the inner future through
`LoggerResponse::poll`; on an inner error the error propagates with no
further effect; on success the body is fully consumed and `StreamLog`'s
drop fires `post_request_update_metrics`. -/
def process_request (this : Inner) (req : RequestData)
    (inner_result : Except Unit ResponsePayload) : List MetricEvent :=
  let inc := MetricEvent.gauge_inc
    (pre_request_update_metrics this req.method req.uri_scheme)
  match logger_response_poll req inner_result with
  | .error _ => [inc]
  | .ok sl =>
    let consumed := stream_log_consume 0 sl.body
    let eff := stream_log_drop this { sl with response_size := consumed.1 }
    inc :: MetricEvent.gauge_dec eff.gauge_dec_labels ::
      (match eff.observation with
       | some (ls, rs, os) => [MetricEvent.observe ls rs os]
       | none => [])

/-- Number of active-request gauge increments in an event list. -/
def gauge_inc_count (evs : List MetricEvent) : Nat :=
  evs.countP (fun e => match e with | .gauge_inc _ => true | _ => false)

/-- Number of active-request gauge decrements in an event list. -/
def gauge_dec_count (evs : List MetricEvent) : Nat :=
  evs.countP (fun e => match e with | .gauge_dec _ => true | _ => false)

/-- The route-label values of the duration/size observations in an event
list. -/
def observed_route_labels (evs : List MetricEvent) : List String :=
  evs.filterMap (fun e =>
    match e with
    | .observe ls _ _ => (ls.head?).map (fun p => p.2)
    | _ => none)

/-- Total byte count of the successfully emitted chunks of a body. -/
def ok_chunk_bytes (chunks : List Chunk) : Nat :=
  (chunks.map (fun c => match c with | .ok b => b.length | .error _ => 0)).sum

/-- The request size captured by a successful `LoggerResponse::poll`. -/
def polled_request_size (req : RequestData) (res : ResponsePayload) : Option Nat :=
  (logger_response_poll req (.ok res)).toOption.map (fun sl => sl.request_size)

/-- A request whose inner handler will be driven to an error. -/
def c1_req : RequestData :=
  { method := "GET"
    uri_scheme := none
    version := .http11
    path := "/fail"
    match_pattern := some "/fail"
    match_info := []
    cardinality_keep_params := []
    content_length := none }

/-- A configuration whose exact-path exclusion set contains the mask
string itself. -/
def c2_inner : Inner :=
  { names := default_metadata
    exclude := ["UNKNOWN"]
    exclude_regex := fun _ => false
    exclude_status := []
    unmatched_patterns_mask := some "UNKNOWN" }

/-- The default builder masks unmatched requests with `"UNKNOWN"`
(lib.rs:288). -/
def builder_no_masking : Inner :=
  { builder_default with unmatched_patterns_mask := none }

/-- An unmatched request to `/does-not-exist`. -/
def c5_req : RequestData :=
  { method := "GET"
    uri_scheme := none
    version := .http11
    path := "/does-not-exist"
    match_pattern := none
    match_info := []
    cardinality_keep_params := []
    content_length := none }

/-- A request carrying a malformed content-length header. -/
def c6_req (cl : Option String) : RequestData :=
  { method := "POST"
    uri_scheme := none
    version := .http11
    path := "/health"
    match_pattern := some "/health"
    match_info := []
    cardinality_keep_params := []
    content_length := cl }

/-- A configuration with one constant label, for exhibiting the emitted
label key order. -/
def c9_inner : Inner :=
  { names := { default_metadata with const_labels := [("label1", "value1")] }
    exclude := []
    exclude_regex := fun _ => false
    exclude_status := []
    unmatched_patterns_mask := some "UNKNOWN" }

/-- A configuration whose constant labels come from the builder's
sort. -/
def c9w_inner : Inner :=
  { names := { default_metadata with
      const_labels := sort_const_labels [("zlabel", "1"), ("alabel", "2")] }
    exclude := []
    exclude_regex := fun _ => false
    exclude_status := []
    unmatched_patterns_mask := some "UNKNOWN" }

/-- A response for the C10 witness. -/
def c10_res : ResponsePayload := { head_status := 200, chunks := [] }

/-- C1: the claim says every active-gauge increment is matched by exactly
one decrement, including requests whose inner handler errors before
producing a response.  The code violates this: the only decrement site is
`StreamLog`'s drop, and `LoggerResponse::poll` returns an inner error
without ever constructing a `StreamLog` (lib.rs:766), so the increment
from `MetricsMiddleware::call` leaks.  This theorem evaluates the
embedded lifecycle at such an input (and shows the successful path does
balance). -/
theorem c1_gauge_leak_on_inner_error :
    gauge_inc_count (process_request builder_default c1_req (.error ())) = 1
    ∧ gauge_dec_count (process_request builder_default c1_req (.error ())) = 0
    ∧ gauge_inc_count (process_request builder_default c1_req
        (.ok { head_status := 200, chunks := [] })) = 1
    ∧ gauge_dec_count (process_request builder_default c1_req
        (.ok { head_status := 200, chunks := [] })) = 1 := by
  decide

/-- C2 counterexample: the exclusion decision is taken on the mixed
pattern before masking (lib.rs:658-662), not on the final emitted route
label.  With `exclude = {"UNKNOWN"}` and an unmatched request to `/x`,
the final emitted label is `UNKNOWN`, which `shouldRecord` rejects, yet
the observation is emitted. -/
theorem c2_exclusion_ignores_final_label :
    (post_request_update_metrics c2_inner .http11 "/x" "/x" "GET" 200 "http"
      false 0 0).observation.isSome = true
    ∧ emitted_route_label (post_request_update_metrics c2_inner .http11 "/x" "/x"
        "GET" 200 "http" false 0 0) = some "UNKNOWN"
    ∧ should_record_spec c2_inner "UNKNOWN" 200 = false := by
  decide

/-- C2 amended: the exclusion decision is computed from the
mixed-cardinality label as it stands before the 404/405 correction and
before unmatched-path masking, together with the final status code, and
the duration/size observations are emitted iff that decision permits
recording. -/
theorem c2_observation_iff_mixed_label_not_excluded (this : Inner)
    (hv : Version) (mixed fallback method : String) (status : Nat)
    (scheme : String) (matched : Bool) (rs os : Nat) :
    (post_request_update_metrics this hv mixed fallback method status scheme
      matched rs os).observation.isSome
      = should_record_spec this mixed status := by
  have hsr : should_record_spec this mixed status
      = !(is_excluded this mixed status) := rfl
  cases hb : is_excluded this mixed status with
  | false => simp [post_request_update_metrics, hsr, hb]
  | true => simp [post_request_update_metrics, hsr, hb]

/-- C4: for a non-excluded matched request, the emitted route label is
the fallback pattern exactly when it differs from the mixed pattern and
the status is 404 or 405, and the mixed pattern otherwise
(lib.rs:665-671). -/
theorem c4_fallback_correction (this : Inner) (hv : Version)
    (mixed fallback method : String) (status : Nat) (scheme : String)
    (rs os : Nat) (h : is_excluded this mixed status = false) :
    emitted_route_label (post_request_update_metrics this hv mixed fallback
      method status scheme true rs os)
      = some (if fallback != mixed && (status == 404 || status == 405)
          then fallback else mixed) := by
  simp [post_request_update_metrics, emitted_route_label, corrected_pattern, h]

theorem c4_fallback_correction_witness :
    emitted_route_label (post_request_update_metrics builder_default .http11
      "/resource/invalid/{expensive}" "/resource/{cheap}/{expensive}" "GET"
      404 "http" true 0 0) = some "/resource/{cheap}/{expensive}"
    ∧ emitted_route_label (post_request_update_metrics builder_default .http11
      "/resource/foo/{expensive}" "/resource/{cheap}/{expensive}" "GET"
      200 "http" true 0 0) = some "/resource/foo/{expensive}" := by
  constructor
  · rw [c4_fallback_correction builder_default .http11
      "/resource/invalid/{expensive}" "/resource/{cheap}/{expensive}" "GET"
      404 "http" 0 0 (by decide)]
    decide
  · rw [c4_fallback_correction builder_default .http11
      "/resource/foo/{expensive}" "/resource/{cheap}/{expensive}" "GET"
      200 "http" 0 0 (by decide)]
    decide

/-- C5: for a non-excluded request that matched no route, the emitted
route label is the configured mask when masking is enabled and the raw
request path when it is disabled (lib.rs:673-679); and for matched
requests the emitted label never depends on the mask setting. -/
theorem c5_unmatched_masking (this : Inner) (req : RequestData)
    (res : ResponsePayload) (h_unmatched : req.match_pattern = none)
    (hrec : is_excluded this req.path res.head_status = false) :
    observed_route_labels (process_request this req (.ok res))
      = [match this.unmatched_patterns_mask with
         | some mask => mask
         | none => req.path]
    ∧ (∀ (hv : Version) (mixed fallback method : String) (status : Nat)
        (scheme : String) (rs os : Nat) (mask1 mask2 : Option String),
        emitted_route_label (post_request_update_metrics
          { this with unmatched_patterns_mask := mask1 } hv mixed fallback
          method status scheme true rs os)
        = emitted_route_label (post_request_update_metrics
          { this with unmatched_patterns_mask := mask2 } hv mixed fallback
          method status scheme true rs os)) := by
  constructor
  · simp [process_request, logger_response_poll, resolve_mixed_pattern,
      h_unmatched, stream_log_drop, post_request_update_metrics,
      corrected_pattern, observed_route_labels, hrec]
  · intro hv mixed fallback method status scheme rs os mask1 mask2
    have hx : is_excluded { this with unmatched_patterns_mask := mask1 }
        mixed status = is_excluded { this with unmatched_patterns_mask := mask2 }
        mixed status := rfl
    cases hb : is_excluded { this with unmatched_patterns_mask := mask2 }
        mixed status with
    | false =>
      rw [hb] at hx
      simp [post_request_update_metrics, emitted_route_label, hb, hx]
    | true =>
      rw [hb] at hx
      simp [post_request_update_metrics, emitted_route_label, hb, hx]

theorem c5_unmatched_masking_witness :
    observed_route_labels (process_request builder_default c5_req
      (.ok { head_status := 404, chunks := [] })) = ["UNKNOWN"]
    ∧ observed_route_labels (process_request builder_no_masking c5_req
      (.ok { head_status := 404, chunks := [] })) = ["/does-not-exist"] := by
  constructor
  · rw [(c5_unmatched_masking builder_default c5_req
      { head_status := 404, chunks := [] } rfl (by decide)).1]
    rfl
  · rw [(c5_unmatched_masking builder_no_masking c5_req
      { head_status := 404, chunks := [] } rfl (by decide)).1]
    rfl

/-- C6: the recorded request body size is the parsed content-length
header and 0 on absence or parse failure, and `LoggerResponse::poll`
succeeds regardless (lib.rs:810-816). -/
theorem c6_request_size_from_content_length (req : RequestData)
    (res : ResponsePayload) :
    (logger_response_poll req (.ok res)).toOption.isSome = true
    ∧ polled_request_size req res
        = some ((req.content_length.bind parse_usize).getD 0)
    ∧ (req.content_length = none → polled_request_size req res = some 0)
    ∧ (∀ s, req.content_length = some s → parse_usize s = none →
        polled_request_size req res = some 0)
    ∧ (∀ s n, req.content_length = some s → parse_usize s = some n →
        polled_request_size req res = some n) := by
  refine ⟨rfl, rfl, ?_, ?_, ?_⟩
  · intro h
    simp [polled_request_size, logger_response_poll, h]
    exact ⟨_, rfl, rfl⟩
  · intro s hs hp
    simp [polled_request_size, logger_response_poll, hs, hp]
    exact ⟨_, rfl, rfl⟩
  · intro s n hs hp
    simp [polled_request_size, logger_response_poll, hs, hp]
    exact ⟨_, rfl, rfl⟩

theorem c6_request_size_witness :
    polled_request_size (c6_req (some "123"))
      { head_status := 200, chunks := [] } = some 123
    ∧ polled_request_size (c6_req (some "not-a-number"))
      { head_status := 200, chunks := [] } = some 0
    ∧ polled_request_size (c6_req none)
      { head_status := 200, chunks := [] } = some 0 := by
  refine ⟨?_, ?_, ?_⟩
  · exact (c6_request_size_from_content_length (c6_req (some "123")) _).2.2.2.2
      "123" 123 rfl (by decide)
  · exact (c6_request_size_from_content_length (c6_req (some "not-a-number")) _).2.2.2.1
      "not-a-number" rfl (by decide)
  · exact (c6_request_size_from_content_length (c6_req none) _).2.2.1 rfl

/-- C7: after full consumption the response-size accumulator equals its
initial value plus the exact byte count of the successfully emitted
chunks, and every chunk (including error chunks) is forwarded to the
consumer unchanged (lib.rs:902-915). -/
theorem c7_response_size_accumulation (acc : Nat) (chunks : List Chunk) :
    (stream_log_consume acc chunks).2 = chunks
    ∧ (stream_log_consume acc chunks).1 = acc + ok_chunk_bytes chunks := by
  induction chunks generalizing acc with
  | nil => simp [stream_log_consume, ok_chunk_bytes]
  | cons c rest ih =>
    cases c with
    | ok b =>
      refine ⟨?_, ?_⟩
      · simp [stream_log_consume, (ih (acc + b.length)).1]
      · simp [stream_log_consume, (ih (acc + b.length)).2, ok_chunk_bytes]
        omega
    | error e =>
      refine ⟨?_, ?_⟩
      · simp [stream_log_consume, (ih acc).1]
      · simp [stream_log_consume, (ih acc).2, ok_chunk_bytes]

/-- C8: when the `strfmt` substitution fails, the route label falls back
to the unmodified matched pattern and the warning is logged; label
resolution is a total function and never fails the request
(lib.rs:801-807). -/
theorem c8_substitution_failure_fallback (fp path : String)
    (mi : List (String × String)) (keep : List String)
    (h : strfmt fp (build_params mi keep) = none) :
    resolve_mixed_pattern (some fp) path mi keep = (fp, true) := by
  simp [resolve_mixed_pattern, h]

theorem c8_substitution_failure_witness :
    resolve_mixed_pattern (some "/x/{id}") "/x/3" [] [] = ("/x/{id}", true) := by
  exact c8_substitution_failure_fallback "/x/{id}" "/x/3" [] []
    (by simp [strfmt, strfmt_go, take_key, build_params])

/-- C10: when the request URI carries no scheme, the url-scheme label in
the gauge-increment labels is `"http"`, and the gauge-decrement labels
produced at drop are exactly the increment labels (lib.rs:609-623,
643-656, 918-920). -/
theorem c10_default_scheme_label (this : Inner) (req : RequestData)
    (res : ResponsePayload) (h : req.uri_scheme = none) :
    pre_request_update_metrics this req.method req.uri_scheme
      = (this.names.http_request_method, req.method)
        :: (this.names.url_scheme, "http") :: this.names.const_labels
    ∧ (∀ sl, logger_response_poll req (.ok res) = .ok sl →
        (stream_log_drop this sl).gauge_dec_labels
          = pre_request_update_metrics this req.method req.uri_scheme) := by
  constructor
  · simp [pre_request_update_metrics, url_scheme, h]
  · intro sl hsl
    simp only [logger_response_poll, Except.ok.injEq] at hsl
    rw [← hsl]
    simp only [stream_log_drop, post_request_update_metrics,
      pre_request_update_metrics]
    split <;> simp [url_scheme, h]

/-- C9 counterexample: the claim lists the scheme among the standard
labels of every duration/size observation, but
`post_request_update_metrics` never pushes the url-scheme label into the
histogram label list (lib.rs:681-699): the emitted key sequence for a
recorded request is route, method, status, protocol name, protocol
version, then the constant labels, with no scheme key. -/
theorem c9_no_scheme_in_observation_labels :
    (observation_labels (post_request_update_metrics c9_inner .http11
      "/health" "/health" "GET" 200 "http" true 0 0)).map
        (fun ls => ls.map Prod.fst)
      = some ["http.route", "http.request.method",
          "http.response.status_code", "network.protocol.name",
          "network.protocol.version", "label1"]
    ∧ (((observation_labels (post_request_update_metrics c9_inner .http11
        "/health" "/health" "GET" 200 "http" true 0 0)).getD []).map
          Prod.fst).contains "url.scheme" = false := by
  decide

/-- C9 amended: every emitted observation's label sequence is the
standard labels in fixed order — route, method, status, protocol name,
protocol version (present only for recognized HTTP versions) — with no
scheme label, followed by the user-supplied constant labels sorted by
key. -/
theorem c9_label_order (this : Inner) (m : List (String × String))
    (hv : Version) (mixed fallback method : String) (status : Nat)
    (scheme : String) (matched : Bool) (rs os : Nat)
    (hconst : this.names.const_labels = sort_const_labels m)
    (hrec : is_excluded this mixed status = false) :
    (∃ route_value,
      observation_labels (post_request_update_metrics this hv mixed fallback
        method status scheme matched rs os)
        = some ((this.names.http_route, route_value) ::
            (this.names.http_request_method, method) ::
            (this.names.http_response_status_code, toString status) ::
            (this.names.network_protocol_name, "http") ::
            ((match http_version_label hv with
              | some v => [(this.names.network_protocol_version, v)]
              | none => []) ++ sort_const_labels m)))
    ∧ List.Pairwise (fun a b : String × String => a.1 ≤ b.1)
        (sort_const_labels m) := by
  constructor
  · simp [post_request_update_metrics, observation_labels, hrec, ← hconst]
  · have hs := @List.sorted_mergeSort (String × String)
      (fun a b => decide (a.1 ≤ b.1))
      (fun a b c h1 h2 => by
        simp only [decide_eq_true_eq] at *
        exact le_trans h1 h2)
      (fun a b => by
        simp only [Bool.or_eq_true, decide_eq_true_eq]
        exact le_total a.1 b.1)
      m
    exact hs.imp (fun h => by simpa using h)

theorem c9_label_order_witness :
    (∃ route_value,
      observation_labels (post_request_update_metrics c9w_inner .http11
        "/health" "/health" "GET" 200 "http" true 0 0)
        = some (("http.route", route_value) ::
            ("http.request.method", "GET") ::
            ("http.response.status_code", toString 200) ::
            ("network.protocol.name", "http") ::
            ((match http_version_label .http11 with
              | some v => [("network.protocol.version", v)]
              | none => []) ++
              sort_const_labels [("zlabel", "1"), ("alabel", "2")])))
    ∧ List.Pairwise (fun a b : String × String => a.1 ≤ b.1)
        (sort_const_labels [("zlabel", "1"), ("alabel", "2")]) :=
  c9_label_order c9w_inner [("zlabel", "1"), ("alabel", "2")] .http11
    "/health" "/health" "GET" 200 "http" true 0 0 rfl (by decide)

theorem c10_default_scheme_label_witness :
    pre_request_update_metrics builder_default c5_req.method c5_req.uri_scheme
      = [("http.request.method", "GET"), ("url.scheme", "http")] := by
  rw [(c10_default_scheme_label builder_default c5_req c10_res rfl).1]
  decide

theorem take_key_append (k rest : List Char)
    (h : k.all (fun c => c != '}') = true) :
    take_key (k ++ '}' :: rest) = some k := by
  induction k with
  | nil => simp [take_key]
  | cons c k' ih =>
    simp only [List.all_cons, Bool.and_eq_true, bne_iff_ne] at h
    simp [take_key, h.1, ih (by simpa using h.2)]

theorem drop_key (k rest : List Char) :
    (k ++ '}' :: rest).drop (k.length + 1) = rest := by
  have h1 : k ++ '}' :: rest = (k ++ ['}']) ++ rest := by simp
  have h2 : k.length + 1 = (k ++ ['}']).length := by simp
  rw [h1, h2, List.drop_left]

theorem strfmt_go_append_text (vars : List (String × String))
    (l rest : List Char) (h : brace_free l = true) :
    strfmt_go vars (l ++ rest)
      = (strfmt_go vars rest).map (fun t => l ++ t) := by
  induction l with
  | nil => cases hres : strfmt_go vars rest <;> simp [hres]
  | cons c l' ih =>
    simp only [brace_free, List.all_cons, Bool.and_eq_true, bne_iff_ne] at h
    obtain ⟨⟨h1, h2⟩, h3⟩ := h
    have ih' := ih (by simpa [brace_free] using h3)
    simp only [List.cons_append]
    rw [strfmt_go.eq_def]
    simp [h1, h2]
    rw [ih']
    cases hres : strfmt_go vars rest <;> simp [hres]

theorem strfmt_go_key (vars : List (String × String)) (n rest : List Char)
    (v : String) (hn : brace_free n = true)
    (hl : vars.lookup (String.mk n) = some v) :
    strfmt_go vars ('{' :: (n ++ '}' :: rest))
      = (strfmt_go vars rest).map (fun t => v.toList ++ t) := by
  have hall : n.all (fun c => c != '}') = true := by
    simp only [brace_free, List.all_eq_true, Bool.and_eq_true] at hn ⊢
    intro x hx
    exact (hn x hx).2
  cases n with
  | nil =>
    simp only [List.nil_append] at *
    rw [strfmt_go.eq_def]
    simp [take_key, hl]
  | cons a n' =>
    simp only [brace_free, List.all_cons, Bool.and_eq_true, bne_iff_ne] at hn
    obtain ⟨⟨h1, h2⟩, h3⟩ := hn
    have hkey := take_key_append (a :: n') rest hall
    have hdrop := drop_key (a :: n') rest
    simp only [List.cons_append] at hkey hdrop ⊢
    rw [strfmt_go.eq_def]
    simp [h1, h2, hkey, hl, hdrop]

theorem build_params_lookup (mi : List (String × String)) (keep : List String)
    (n : String) :
    (build_params mi keep).lookup n
      = (mi.lookup n).map
          (fun v => if keep.contains n then v else "\x7b" ++ n ++ "\x7d") := by
  induction mi with
  | nil => simp [build_params]
  | cons p t ih =>
    have hpair : (if keep.contains p.1 then p else (p.1, "\x7b" ++ p.1 ++ "\x7d"))
        = (p.1, if keep.contains p.1 then p.2 else "\x7b" ++ p.1 ++ "\x7d") := by
      by_cases hc : p.1 ∈ keep <;> simp [hc]
    simp only [build_params, List.map_cons] at *
    rw [hpair]
    by_cases hnp : n = p.1
    · simp [List.lookup, hnp]
    · have hb : (n == p.1) = false := by simpa using hnp
      simp only [List.lookup, hb]
      exact ih

theorem strfmt_go_render (mi : List (String × String)) (keep : List String) :
    ∀ (pieces : List Piece) (rest : List Char), wf_pieces mi pieces = true →
    strfmt_go (build_params mi keep) (render_chars pieces ++ rest)
      = (strfmt_go (build_params mi keep) rest).map
          (fun t => spec_label_chars keep mi pieces ++ t) := by
  intro pieces
  induction pieces with
  | nil =>
    intro rest _
    cases hres : strfmt_go (build_params mi keep) rest <;>
      simp [render_chars, spec_label_chars, hres]
  | cons pc r ih =>
    intro rest hwf
    cases pc with
    | lit s =>
      simp only [wf_pieces, Bool.and_eq_true] at hwf
      simp only [render_chars, spec_label_chars, List.append_assoc]
      rw [strfmt_go_append_text _ _ _ hwf.1, ih _ hwf.2]
      cases hres : strfmt_go (build_params mi keep) rest <;> simp [hres]
    | par n =>
      simp only [wf_pieces, Bool.and_eq_true] at hwf
      obtain ⟨⟨hbf, hbound⟩, hwfr⟩ := hwf
      obtain ⟨v, hv⟩ := Option.isSome_iff_exists.mp hbound
      have hmk : String.mk n.toList = n := rfl
      have hlook : (build_params mi keep).lookup (String.mk n.toList)
          = some (if keep.contains n then v else "\x7b" ++ n ++ "\x7d") := by
        rw [hmk, build_params_lookup, hv]
        rfl
      simp only [render_chars, spec_label_chars, List.cons_append,
        List.append_assoc]
      rw [strfmt_go_key _ _ _ _ hbf hlook, ih _ hwfr]
      cases hres : strfmt_go (build_params mi keep) rest <;> simp [hres, hv]

/-- C3: for every well-formed matched route template, the resolved route
label is the template with each bound parameter replaced by its literal
value if its name is in the per-route cardinality override set and by
its placeholder token otherwise, and the substitution succeeds (no
warning) (lib.rs:788-808). -/
theorem c3_resolved_label (pieces : List Piece) (mi : List (String × String))
    (keep : List String) (path : String)
    (hwf : wf_pieces mi pieces = true) :
    resolve_mixed_pattern (some (render_template pieces)) path mi keep
      = (spec_mixed_label keep mi pieces, false) := by
  have hmain := strfmt_go_render mi keep pieces [] hwf
  simp only [List.append_nil] at hmain
  have htl : (String.mk (render_chars pieces)).toList = render_chars pieces := rfl
  simp only [resolve_mixed_pattern, strfmt, render_template, htl, hmain]
  simp [strfmt_go, spec_mixed_label]

theorem c3_resolved_label_witness :
    resolve_mixed_pattern (some "/posts/{language}/{slug}") "/posts/en/my-post"
      [("language", "en"), ("slug", "my-post")] ["language"]
      = ("/posts/en/{slug}", false)
    ∧ resolve_mixed_pattern (some "/posts/{language}/{slug}") "/posts/en/my-post"
      [("language", "en"), ("slug", "my-post")] []
      = ("/posts/{language}/{slug}", false) := by
  constructor
  · have h := c3_resolved_label posts_pieces
      [("language", "en"), ("slug", "my-post")] ["language"]
      "/posts/en/my-post" (by decide)
    have e1 : render_template posts_pieces = "/posts/{language}/{slug}" := by
      decide
    have e2 : spec_mixed_label ["language"]
        [("language", "en"), ("slug", "my-post")] posts_pieces
        = "/posts/en/{slug}" := by decide
    rw [e1, e2] at h
    exact h
  · have h := c3_resolved_label posts_pieces
      [("language", "en"), ("slug", "my-post")] []
      "/posts/en/my-post" (by decide)
    have e1 : render_template posts_pieces = "/posts/{language}/{slug}" := by
      decide
    have e2 : spec_mixed_label []
        [("language", "en"), ("slug", "my-post")] posts_pieces
        = "/posts/{language}/{slug}" := by decide
    rw [e1, e2] at h
    exact h

end ActixWebMetrics
